import Mathlib

/-
Verification of the hugr cluster-coordination subsystem (pkg/cluster/node.go).

The Go file holds two parts: the per-worker `Node` handle with its health
loop and command relays, and the management `Service` with its HTTP
handlers.  Both are embedded shallowly below:

* machine state (the Go structs) becomes Lean structures; `time.Time` and
  `time.Duration` become `Nat`;
* every outbound network call (ping, query, command) is modelled by an
  oracle argument giving that call's outcome, and each relay additionally
  returns the number of outbound network calls it performed, so that
  "no network call is made" is provable;
* Go's `map[string]*Node` becomes an association list with Go map
  semantics (lookup by key, insert-or-overwrite, delete); Go's map
  iteration order is unspecified, the list order stands for one such
  order;
* the `go`-routine health loops are modelled by loop identifiers: the
  registry state tracks the set of live loop ids, `go node.Start(ctx)`
  allocates a fresh live id, `node.Stop()` removes the handle's id;
* the concurrent fan-out plus error-channel collector of the mutation
  broadcast handlers is modelled in snapshot order, with the collector's
  unsynchronized progress made explicit: the Go handlers read the
  collector's `errMsg` after `wg.Wait()`/`close(errCh)` without joining
  the collector goroutine, and a send on the unbuffered channel completes
  at the collector's receive — before the collector's append — so the
  append of the last received error may not be visible at the read.  Each
  mutation handler therefore takes a `lagged` schedule flag selecting
  whether that final append was visible (`lagged = false` is the fully
  synchronized schedule, `lagged = true` the racy one).
-/

namespace HugrCluster

/-! # The Node handle (node.go, `type Node struct`, lines 16-28)

Fields `c` (the HTTP client) and `stop` (the cancel function) are not data;
they are modelled by the network oracles and the registry's loop ids. -/

structure Node where
  url : String
  clusterVersion : String
  check : Nat
  timeout : Nat
  lastSeen : Nat
  version : String
  err : Option String
  deriving Repr, DecidableEq

/-- node.go `type NodeConfig struct` (lines 30-37). `Secret` configures the
client only and carries no registry-visible state. -/
structure NodeConfig where
  URL : String
  Version : String
  Secret : String
  Timeout : Nat
  Interval : Nat
  ClusterVersion : String
  deriving Repr, DecidableEq

/-- node.go `NewNode` (lines 39-61): defaults `Interval` to 60s and
`Timeout` to 30s when zero; the fresh handle starts with `err = nil`
(Go zero value), `lastSeen = time.Now()` (the `now` argument) and
`version = c.Version`. -/
def NewNode (c : NodeConfig) (now : Nat) : Node :=
  let interval := if c.Interval = 0 then 60 else c.Interval
  let timeout := if c.Timeout = 0 then 30 else c.Timeout
  { url := c.URL
    clusterVersion := c.ClusterVersion
    check := interval
    timeout := timeout
    lastSeen := now
    version := c.Version
    err := none }

/-- node.go `Node.IsReady` (lines 99-103): reads the state under the
node's lock and mutates nothing. -/
def Node.IsReady (n : Node) : Bool :=
  n.err.isNone && n.version == n.clusterVersion

/-- One tick of the health loop in node.go `Node.Start` (lines 76-88):
`ping` is the outcome of `n.c.Ping(ctx)` and `now` the value of
`time.Now()` at that tick. On failure only `err` is assigned; on success
`version`, `lastSeen` and `err` are assigned. -/
def Node.tick (n : Node) (ping : Except String String) (now : Nat) : Node :=
  match ping with
  | .error e => { n with err := some e }
  | .ok nv => { n with version := nv, lastSeen := now, err := none }

/-- node.go `Node.LoadDataSource` (lines 126-131); `net` is the outcome of
`n.c.LoadDataSource(ctx, name)`. Second component counts outbound calls. -/
def Node.LoadDataSource (n : Node) (net : Except String Unit) :
    Except String Unit × Nat :=
  if n.IsReady then (net, 1) else (.error "node is not ready", 0)

/-- node.go `Node.UnloadDataSource` (lines 133-138). -/
def Node.UnloadDataSource (n : Node) (net : Except String Unit) :
    Except String Unit × Nat :=
  if n.IsReady then (net, 1) else (.error "node is not ready", 0)

/-- node.go `Node.DataSourceStatus` (lines 140-145); `net` is the outcome of
`n.c.DataSourceStatus(ctx, name)`. -/
def Node.DataSourceStatus (n : Node) (net : Except String String) :
    Except String String × Nat :=
  if n.IsReady then (net, 1) else (.error "node is not ready", 0)

/-! # Storage-credential parameter validation (node.go lines 147-241) -/

/-- A `map[string]any` value as it can appear in `storage.SecretInfo`
parameters after JSON decoding. -/
inductive PVal where
  | str (v : String)
  | boolv (v : Bool)
  | strs (v : List String)
  deriving Repr, DecidableEq

/-- `storage.SecretInfo` as used by `Node.RegisterObjectStorage`:
type, name, scope and the opaque parameter map. -/
structure SecretInfo where
  typ : String
  Name : String
  Scope : List String
  Parameters : List (String × PVal)
  deriving Repr, DecidableEq

/-- Lookup in the decoded parameter map (`info.Parameters[k]`). -/
def lookupParam (ps : List (String × PVal)) (k : String) : Option PVal :=
  (ps.find? (fun p => p.1 == k)).map (·.2)

/-- The key list iterated by the validation loop of
`Node.RegisterObjectStorage` (node.go line 156), in source order. -/
def storageParamKeys : List String :=
  ["KEY_ID", "SECRET", "REGION", "ENDPOINT", "USE_SSL", "URL_STYLE",
   "URL_COMPATIBILITY_MODE", "KMS_KEY_ID", "ACCOUNT_ID"]

/-- The keys whose absence makes the loop return
`errors.New("missing parameter: " + k)` — every key of
`storageParamKeys` except the three with local defaults
(`URL_COMPATIBILITY_MODE`, `KMS_KEY_ID`, `ACCOUNT_ID`). -/
def requiredStorageParamKeys : List String :=
  ["KEY_ID", "SECRET", "REGION", "ENDPOINT", "USE_SSL", "URL_STYLE"]

/-- The validation loop of `Node.RegisterObjectStorage`
(node.go lines 156-185), run over a key list; returns the accumulated
query-parameter entries built from those keys, or the first local error.
`val.(bool)` on a non-bool `URL_COMPATIBILITY_MODE` value panics in Go
(an unchecked type assertion); the panic is modelled as an error outcome
so that the function stays total — no theorem below depends on that
branch. -/
def buildStorageParamsAux (ps : List (String × PVal)) :
    List String → Except String (List (String × PVal))
  | [] => .ok []
  | k :: ks =>
    match lookupParam ps k with
    | none =>
      if k == "URL_COMPATIBILITY_MODE" then
        (buildStorageParamsAux ps ks).map
          (("url_compatibility", PVal.boolv false) :: ·)
      else if k == "KMS_KEY_ID" || k == "ACCOUNT_ID" then
        (buildStorageParamsAux ps ks).map ((k, PVal.str "") :: ·)
      else .error ("missing parameter: " ++ k)
    | some val =>
      if k == "URL_COMPATIBILITY_MODE" then
        match val with
        | .boolv b =>
          (buildStorageParamsAux ps ks).map
            (("url_compatibility", PVal.boolv b) :: ·)
        | _ => .error "panic: URL_COMPATIBILITY_MODE is not a bool"
      else if k == "USE_SSL" then
        match val with
        | .boolv b =>
          (buildStorageParamsAux ps ks).map (("use_ssl", PVal.boolv b) :: ·)
        | _ => .error ("invalid parameter: " ++ k)
      else (buildStorageParamsAux ps ks).map ((k, val) :: ·)

/-- Builds the full query-parameter map of `Node.RegisterObjectStorage`
(node.go lines 151-185): the three fixed entries plus the validated
entries from the key loop. -/
def buildStorageParams (info : SecretInfo) :
    Except String (List (String × PVal)) :=
  (buildStorageParamsAux info.Parameters storageParamKeys).map
    (fun rest =>
      ("type", PVal.str info.typ) :: ("name", PVal.str info.Name) ::
        ("scope", PVal.strs info.Scope) :: rest)

/-- node.go `Node.RegisterObjectStorage` (lines 147-241): readiness check,
then local parameter validation, then — only if both pass — the outbound
`n.c.Query` mutation whose combined outcome (transport, result scan and
`OperationResult.Succeed`) is the oracle `net`. -/
def Node.RegisterObjectStorage (n : Node) (info : SecretInfo)
    (net : Except String Unit) : Except String Unit × Nat :=
  if n.IsReady then
    match buildStorageParams info with
    | .error e => (.error e, 0)
    | .ok _ => (net, 1)
  else (.error "node is not ready", 0)

/-- node.go `Node.UnregisterObjectStorage` (lines 243-278). -/
def Node.UnregisterObjectStorage (n : Node) (net : Except String Unit) :
    Except String Unit × Nat :=
  if n.IsReady then (net, 1) else (.error "node is not ready", 0)

/-- node.go `type StorageInfo struct` (lines 280-286); the Go field `Type`
is spelled `typ` because `Type` is reserved in Lean. -/
structure StorageInfo where
  Node : String
  Name : String
  typ : String
  Scope : List String
  Parameters : String
  deriving Repr, DecidableEq

/-- Error outcome of `Node.RegisteredStorages`: the sentinel
`errNotReady = errors.New("node is not ready")` (node.go line 14) is
distinguished from every other error because the storages handler tests
it with `errors.Is`, which matches the sentinel by identity. -/
inductive StErr where
  | notReady
  | other (msg : String)
  deriving Repr, DecidableEq

/-- node.go `Node.RegisteredStorages` (lines 288-318): returns the
sentinel `errNotReady` when the node is not ready, otherwise relays the
outcome of the outbound query. -/
def Node.RegisteredStorages (n : Node) (net : Except String (List StorageInfo)) :
    Except StErr (List StorageInfo) × Nat :=
  if n.IsReady then (net.mapError .other, 1)
  else (.error .notReady, 0)

/-! # The management Service (node.go, second part, lines 337-814) -/

/-- A registry entry: the node handle together with the identifier of the
health loop started for it by `go node.Start(ctx)`. -/
structure RegNode where
  node : Node
  loopId : Nat
  deriving Repr, DecidableEq

/-- node.go `type Service struct` (lines 355-366) plus the loop
bookkeeping: `nextLoop` is the next fresh loop identifier and
`liveLoops` the identifiers of the health loops currently running. -/
structure Registry where
  version : String
  secret : String
  timeout : Nat
  check : Nat
  nodes : List (String × RegNode)
  nextLoop : Nat
  liveLoops : List Nat
  deriving Repr, DecidableEq

/-- `s.nodes[key]` — Go map lookup on the name-keyed node map. -/
def lookupNode (nodes : List (String × RegNode)) (key : String) :
    Option RegNode :=
  (nodes.find? (fun p => p.1 == key)).map (·.2)

/-- `s.nodes[key] = rn` — Go map assignment: overwrites the entry under
`key` if present, otherwise adds one. -/
def insertNode (nodes : List (String × RegNode)) (key : String)
    (rn : RegNode) : List (String × RegNode) :=
  if nodes.any (fun p => p.1 == key) then
    nodes.map (fun p => if p.1 == key then (key, rn) else p)
  else nodes ++ [(key, rn)]

/-- `delete(s.nodes, key)` — Go map deletion. -/
def eraseNode (nodes : List (String × RegNode)) (key : String) :
    List (String × RegNode) :=
  nodes.filter (fun p => p.1 != key)

/-- Outcome of the POST branch of `Service.nodeHandler`. -/
inductive RegOutcome where
  | badRequest
  | removed
  | registered
  deriving Repr, DecidableEq

/-- The POST branch of node.go `Service.nodeHandler` (lines 453-495):
reads `url`, optional `name` (defaulting to the URL) and optional
`version` from the query; under the service lock, if `s.nodes[nodeURL]`
exists (a lookup by URL in the name-keyed map) the entry is stopped and
deleted, otherwise a fresh `Node` is built via `NewNode`, its health loop
started with `go node.Start(context.Background())` (a fresh live loop id)
and the handle inserted under `nodeName`. -/
def nodeHandlerPost (s : Registry) (urlParam nameParam versionParam : String)
    (now : Nat) : Registry × RegOutcome :=
  if urlParam = "" then (s, .badRequest)
  else
    let nodeName := if nameParam = "" then urlParam else nameParam
    match lookupNode s.nodes urlParam with
    | some rn =>
      ({ s with
          nodes := eraseNode s.nodes urlParam
          liveLoops := s.liveLoops.erase rn.loopId }, .removed)
    | none =>
      let n := NewNode
        { URL := urlParam
          Version := versionParam
          Secret := s.secret
          Timeout := s.timeout
          Interval := s.check
          ClusterVersion := s.version } now
      ({ s with
          nodes := insertNode s.nodes nodeName ⟨n, s.nextLoop⟩
          nextLoop := s.nextLoop + 1
          liveLoops := s.nextLoop :: s.liveLoops }, .registered)

/-- An HTTP response: status code and body text. -/
structure HttpResp where
  code : Nat
  body : String
  deriving Repr, DecidableEq

/-- One step of the error collector shared by the mutation broadcast
handlers (node.go lines 597-605 and its three copies):
`if errMsg != "" { errMsg += ";\n" }; errMsg += err.Error()`. -/
def appendErr (acc e : String) : String :=
  if acc = "" then e else acc ++ ";\n" ++ e

/-- The combined error message the collector builds from the per-node
errors it receives. -/
def combineErrs (es : List String) : String :=
  es.foldl appendErr ""

/-- The per-node error messages a mutation broadcast sends into its error
channel: one formatted message per failing member, in snapshot order;
members whose call succeeds send nothing. -/
def broadcastErrs (nodes : List (String × RegNode))
    (perNodeErr : String → RegNode → Option String) : List String :=
  nodes.filterMap (fun p => perNodeErr p.1 p.2)

/-- The per-node error messages whose appends the collector goroutine has
performed at the moment the handler reads `errMsg`.  `wg.Wait()` returns
only after every send on the unbuffered `errCh` was received, and the
collector appends each received error before receiving the next, so at
the read every error except possibly the last received one has been
appended; the handler never joins the collector (node.go lines 597-608
and the three copies), so `lagged = true` is a reachable schedule in
which the final append is not yet visible.  (The receive order is
scheduler-chosen; the model fixes snapshot order, which is exact whenever
at most one member fails.) -/
def collectorView (errs : List String) (lagged : Bool) : List String :=
  if lagged then errs.dropLast else errs

/-- The message a failing member contributes in
`Service.loadDataSourceHandler` (node.go line 592):
`fmt.Errorf("failed to load data source on node %s: %w", nn, err)`. -/
def loadErrMsg (nn e : String) : String :=
  "failed to load data source on node " ++ nn ++ ": " ++ e

/-- Per-member outcome of the load broadcast: `some msg` iff
`node.LoadDataSource` fails, where `net` gives each member's network
outcome. -/
def loadFail (net : String → Except String Unit) (nn : String)
    (rn : RegNode) : Option String :=
  match (rn.node.LoadDataSource (net nn)).1 with
  | .ok _ => none
  | .error e => some (loadErrMsg nn e)

/-- Success body written by `loadDataSourceHandler` (node.go line 614). -/
def loadOkBody : String :=
  "\x7b\"success\":\"true\", \"message\":\"Data source loaded successfully\"\x7d"

/-- Success body written by `unloadDataSourceHandler` (node.go line 667). -/
def unloadOkBody : String :=
  "\x7b\"success\":\"true\", \"message\":\"Data source unloaded successfully\"\x7d"

/-- Success body written by `registerObjectStorageHandler` (node.go line 721). -/
def registerOkBody : String :=
  "\x7b\"success\":\"true\", \"message\":\"Data source registered successfully\"\x7d"

/-- Success body written by `unregisterObjectStorageHandler` (node.go line 773). -/
def unregisterOkBody : String :=
  "\x7b\"success\":\"true\", \"message\":\"S3 storage delete successfully\"\x7d"

/-- node.go `Service.loadDataSourceHandler` (lines 564-616), GET with a
path name: fans `LoadDataSource` out to every member and decides 500/200
on the `errMsg` value visible when the main goroutine reads it after
`wg.Wait()`/`close(errCh)` — without joining the collector goroutine, so
the visible value is `collectorView` of the sent errors under the
schedule flag `lagged`. -/
def loadDataSourceHandler (s : Registry) (name : String)
    (net : String → Except String Unit) (lagged : Bool) : HttpResp :=
  if name = "" then ⟨400, "name is required"⟩
  else
    let errMsg :=
      combineErrs (collectorView (broadcastErrs s.nodes (loadFail net)) lagged)
    if errMsg = "" then
      ⟨200, loadOkBody⟩
    else ⟨500, errMsg⟩

/-- The message a failing member contributes in
`Service.unloadDataSourceHandler` (node.go line 644). -/
def unloadErrMsg (nn e : String) : String :=
  "failed to unload data source on node " ++ nn ++ ": " ++ e

/-- Per-member outcome of the unload broadcast. -/
def unloadFail (net : String → Except String Unit) (nn : String)
    (rn : RegNode) : Option String :=
  match (rn.node.UnloadDataSource (net nn)).1 with
  | .ok _ => none
  | .error e => some (unloadErrMsg nn e)

/-- node.go `Service.unloadDataSourceHandler` (lines 618-668); same
unjoined-collector read as `loadDataSourceHandler` (lines 649-660). -/
def unloadDataSourceHandler (s : Registry) (name : String)
    (net : String → Except String Unit) (lagged : Bool) : HttpResp :=
  if name = "" then ⟨400, "name is required"⟩
  else
    let errMsg :=
      combineErrs (collectorView (broadcastErrs s.nodes (unloadFail net)) lagged)
    if errMsg = "" then
      ⟨200, unloadOkBody⟩
    else ⟨500, errMsg⟩

/-- How `fmt`'s `%s` verb renders the `[]string` scope field
(`ds.Scope` in node.go line 699): the elements space-separated in
brackets. -/
def fmtScope (xs : List String) : String :=
  "[" ++ String.intercalate " " xs ++ "]"

/-- The message a failing member contributes in
`Service.registerObjectStorageHandler` (node.go line 699):
`fmt.Errorf("failed to register Object storage %s on node %s: %w",
ds.Scope, nn, err)`. -/
def registerStorageErrMsg (scope : List String) (nn e : String) : String :=
  "failed to register Object storage " ++ fmtScope scope ++ " on node " ++
    nn ++ ": " ++ e

/-- Per-member outcome of the register-storage broadcast. -/
def registerStorageFail (ds : SecretInfo) (net : String → Except String Unit)
    (nn : String) (rn : RegNode) : Option String :=
  match (rn.node.RegisterObjectStorage ds (net nn)).1 with
  | .ok _ => none
  | .error e => some (registerStorageErrMsg ds.Scope nn e)

/-- node.go `Service.registerObjectStorageHandler` (lines 670-722), POST
with a decoded `storage.SecretInfo` body; same unjoined-collector read
(lines 704-715). -/
def registerObjectStorageHandler (s : Registry) (ds : SecretInfo)
    (net : String → Except String Unit) (lagged : Bool) : HttpResp :=
  let errMsg :=
    combineErrs
      (collectorView (broadcastErrs s.nodes (registerStorageFail ds net)) lagged)
  if errMsg = "" then
    ⟨200, registerOkBody⟩
  else ⟨500, errMsg⟩

/-- The message a failing member contributes in
`Service.unregisterObjectStorageHandler` (node.go line 751). -/
def unregisterStorageErrMsg (name nn e : String) : String :=
  "failed to unregister Object storage " ++ name ++ " on node " ++ nn ++
    ": " ++ e

/-- Per-member outcome of the unregister-storage broadcast. -/
def unregisterStorageFail (name : String) (net : String → Except String Unit)
    (nn : String) (rn : RegNode) : Option String :=
  match (rn.node.UnregisterObjectStorage (net nn)).1 with
  | .ok _ => none
  | .error e => some (unregisterStorageErrMsg name nn e)

/-- node.go `Service.unregisterObjectStorageHandler` (lines 724-774),
DELETE with a path name; same unjoined-collector read (lines 756-767). -/
def unregisterObjectStorageHandler (s : Registry) (name : String)
    (net : String → Except String Unit) (lagged : Bool) : HttpResp :=
  if name = "" then ⟨400, "name is required"⟩
  else
    let errMsg :=
      combineErrs
        (collectorView (broadcastErrs s.nodes (unregisterStorageFail name net))
          lagged)
    if errMsg = "" then
      ⟨200, unregisterOkBody⟩
    else ⟨500, errMsg⟩

/-- node.go `type DataSourceStatus struct` (lines 516-520). -/
structure DataSourceStatus where
  Node : String
  Status : String
  Error : String
  deriving Repr, DecidableEq

/-- Response of the status endpoint: the HTTP code and the decoded entry
list (the JSON encoding of the entries is abstracted; writing the body
sets the implicit 200 status). -/
structure StatusResp where
  code : Nat
  entries : List DataSourceStatus
  deriving Repr, DecidableEq

/-- node.go `Service.dataSourceStatusHandler` (lines 522-562), GET with a
path name: queries every member sequentially; a failing member is
reported inside the body as an entry with `Status = "error"` and the
error text; the response itself is the encoder's implicit 200. -/
def dataSourceStatusHandler (s : Registry) (name : String)
    (net : String → Except String String) : StatusResp :=
  if name = "" then ⟨400, []⟩
  else
    ⟨200, s.nodes.map (fun p =>
      match (p.2.node.DataSourceStatus (net p.1)).1 with
      | .error e => ⟨p.1, "error", e⟩
      | .ok st => ⟨p.1, st, ""⟩)⟩

/-- Response of the storages-listing endpoint: HTTP code, error body text
(empty on success) and the decoded credential list. -/
structure StoragesResp where
  code : Nat
  err : String
  storages : List StorageInfo
  deriving Repr, DecidableEq

/-- The member loop of node.go `Service.registeredStoragesHandler`
(lines 793-806): per member, `errors.Is(err, errNotReady)` skips the
member, any other error aborts with 500, a success appends the member's
credentials each tagged with the member's registry name. -/
def storagesGo (net : String → Except String (List StorageInfo)) :
    List (String × RegNode) → List StorageInfo → StoragesResp
  | [], acc => ⟨200, "", acc⟩
  | (nm, rn) :: rest, acc =>
    match (rn.node.RegisteredStorages (net nm)).1 with
    | .error .notReady => storagesGo net rest acc
    | .error (.other e) => ⟨500, e, []⟩
    | .ok ss =>
      storagesGo net rest (acc ++ ss.map (fun si => { si with Node := nm }))

/-- node.go `Service.registeredStoragesHandler` (lines 776-814), GET. -/
def registeredStoragesHandler (s : Registry)
    (net : String → Except String (List StorageInfo)) : StoragesResp :=
  storagesGo net s.nodes []

/-! # Aggregate deadlines

The duration passed to `context.WithTimeout` by each fan-out handler. -/

/-- node.go line 537: `time.Duration(len(s.nodes))*s.timeout`. -/
def dataSourceStatusDeadline (s : Registry) : Nat :=
  s.nodes.length * s.timeout

/-- node.go line 574: `2*s.timeout`. -/
def loadDataSourceDeadline (s : Registry) : Nat := 2 * s.timeout

/-- node.go line 628: `2*s.timeout`. -/
def unloadDataSourceDeadline (s : Registry) : Nat := 2 * s.timeout

/-- node.go line 682: `2*s.timeout`. -/
def registerObjectStorageDeadline (s : Registry) : Nat := 2 * s.timeout

/-- node.go line 734: `2*s.timeout`. -/
def unregisterObjectStorageDeadline (s : Registry) : Nat := 2 * s.timeout

/-- node.go line 789: `time.Duration(len(s.nodes))*s.timeout`. -/
def registeredStoragesDeadline (s : Registry) : Nat :=
  s.nodes.length * s.timeout

/-! # Claim theorems -/

/-- C4: `Node.IsReady` is true exactly when the stored error is nil and
the reported version equals the configured cluster version; equivalently
it is false exactly when the error is non-nil or the version differs —
so false whenever the error is non-nil regardless of version, and false
whenever the version differs regardless of error state. The embedding of
`IsReady` is a pure function of the node state: it performs no I/O and
returns no modified state. -/
theorem isReady_characterization (n : Node) :
    (n.IsReady = true ↔ n.err = none ∧ n.version = n.clusterVersion) ∧
    (n.IsReady = false ↔ n.err ≠ none ∨ n.version ≠ n.clusterVersion) := by
  constructor
  · simp [Node.IsReady, Option.isNone_iff_eq_none]
  · simp [Node.IsReady, Option.isNone_iff_eq_none, or_iff_not_imp_left]

/-- C5: one health-loop tick after a successful ping clears the error,
stores the pinged version and stamps `lastSeen` with the current time
(all other fields unchanged); a tick after a failed ping stores only the
error and leaves the version and `lastSeen` fields at their previous
values (all other fields unchanged too). -/
theorem tick_success_and_failure_frame (n : Node) (nv e : String) (now : Nat) :
    ((n.tick (.ok nv) now).err = none ∧
     (n.tick (.ok nv) now).version = nv ∧
     (n.tick (.ok nv) now).lastSeen = now ∧
     (n.tick (.ok nv) now).url = n.url ∧
     (n.tick (.ok nv) now).clusterVersion = n.clusterVersion ∧
     (n.tick (.ok nv) now).check = n.check ∧
     (n.tick (.ok nv) now).timeout = n.timeout) ∧
    ((n.tick (.error e) now).err = some e ∧
     (n.tick (.error e) now).version = n.version ∧
     (n.tick (.error e) now).lastSeen = n.lastSeen ∧
     (n.tick (.error e) now).url = n.url ∧
     (n.tick (.error e) now).clusterVersion = n.clusterVersion ∧
     (n.tick (.error e) now).check = n.check ∧
     (n.tick (.error e) now).timeout = n.timeout) := by
  simp [Node.tick]

/-- C3: every command relay on a node that is not ready returns the
"node is not ready" error (for `RegisteredStorages`, the dedicated
sentinel) and performs zero outbound network calls, whatever outcome the
network would have produced. -/
theorem not_ready_relays_fail_without_network (n : Node) (info : SecretInfo)
    (netU netU2 netU3 netU4 : Except String Unit)
    (netS : Except String String)
    (netL : Except String (List StorageInfo))
    (h : n.IsReady = false) :
    n.LoadDataSource netU = (.error "node is not ready", 0) ∧
    n.UnloadDataSource netU2 = (.error "node is not ready", 0) ∧
    n.DataSourceStatus netS = (.error "node is not ready", 0) ∧
    n.RegisterObjectStorage info netU3 = (.error "node is not ready", 0) ∧
    n.UnregisterObjectStorage netU4 = (.error "node is not ready", 0) ∧
    n.RegisteredStorages netL = (.error .notReady, 0) := by
  simp [Node.LoadDataSource, Node.UnloadDataSource, Node.DataSourceStatus,
    Node.RegisterObjectStorage, Node.UnregisterObjectStorage,
    Node.RegisteredStorages, h]

/-- A worker handle whose reported version does not match the cluster
version (hence not ready). -/
def notReadyNode : Node :=
  { url := "http://w1", clusterVersion := "v1", check := 60, timeout := 30,
    lastSeen := 0, version := "v0", err := none }

/-- Witness for C3 at a concrete not-ready node. -/
theorem not_ready_relays_fail_without_network_witness :
    notReadyNode.IsReady = false ∧
    notReadyNode.LoadDataSource (.ok ()) = (.error "node is not ready", 0) ∧
    notReadyNode.RegisteredStorages (.ok []) = (.error .notReady, 0) := by
  have h := not_ready_relays_fail_without_network notReadyNode
    ⟨"s3", "a", [], []⟩ (.ok ()) (.ok ()) (.ok ()) (.ok ()) (.ok "st")
    (.ok []) (by decide)
  exact ⟨by decide, h.1, h.2.2.2.2.2⟩

/-- A worker handle whose reported version matches the cluster version
"v1" (hence ready). -/
def readyNode : Node :=
  { url := "u", clusterVersion := "v1", check := 60, timeout := 30,
    lastSeen := 0, version := "v1", err := none }

/-- The empty registry of a management service configured with cluster
version "v1", secret "s", 30s timeout, 60s check interval. -/
def emptyReg : Registry :=
  { version := "v1", secret := "s", timeout := 30, check := 60,
    nodes := [], nextLoop := 0, liveLoops := [] }

/-- The registry after `POST /node?url=u&name=A&version=v1` on the empty
registry. -/
def c1RegAfterFirst : Registry :=
  (nodeHandlerPost emptyReg "u" "A" "v1" 0).1

/-- The registry after a second registration
`POST /node?url=u&name=B&version=v1` naming the same URL `u`. -/
def c1RegAfterSecond : Registry :=
  (nodeHandlerPost c1RegAfterFirst "u" "B" "v1" 1).1

/-- C1 (evaluation at the failing input): `nodeHandler`'s POST branch
looks the URL up in the name-keyed map (`s.nodes[nodeURL]`), so after
registering URL `u` under name "A" a second registration of the same URL
under name "B" does not toggle the member off: it leaves two registry
entries for URL `u` and two live health loops, where the claim demands
no entry for that URL and at most one loop. -/
theorem same_url_reregistration_leaves_two_loops :
    (c1RegAfterSecond.nodes.filter (fun p => p.2.node.url == "u")).length = 2 ∧
    c1RegAfterSecond.liveLoops.length = 2 ∧
    lookupNode c1RegAfterSecond.nodes "A" ≠ none ∧
    lookupNode c1RegAfterSecond.nodes "B" ≠ none := by
  decide

/-- A three-member registry over ready nodes, per-node timeout 30. -/
def threeNodeReg : Registry :=
  { version := "v1", secret := "s", timeout := 30, check := 60,
    nodes := [("a", ⟨readyNode, 0⟩), ("b", ⟨readyNode, 1⟩),
              ("c", ⟨readyNode, 2⟩)],
    nextLoop := 3, liveLoops := [2, 1, 0] }

/-- C8 counterexample: with three registered nodes and a 30s per-node
timeout, the load-data-source broadcast uses an aggregate deadline of
`2*timeout = 60`, not `nodes * timeout = 90` as the claim states for
every broadcast operation. -/
theorem load_deadline_not_scaled_by_node_count :
    threeNodeReg.nodes.length = 3 ∧ threeNodeReg.timeout = 30 ∧
    loadDataSourceDeadline threeNodeReg = 60 ∧
    loadDataSourceDeadline threeNodeReg ≠
      threeNodeReg.nodes.length * threeNodeReg.timeout := by
  decide

/-- C8 (amended): only the data-source status and storage-listing
fan-outs scale their aggregate deadline by the number of registered
nodes; the four mutation broadcasts (load, unload, register-storage,
unregister-storage) use a fixed aggregate deadline of twice the per-node
timeout, independent of the node count. -/
theorem aggregate_deadlines (s : Registry) :
    dataSourceStatusDeadline s = s.nodes.length * s.timeout ∧
    registeredStoragesDeadline s = s.nodes.length * s.timeout ∧
    loadDataSourceDeadline s = 2 * s.timeout ∧
    unloadDataSourceDeadline s = 2 * s.timeout ∧
    registerObjectStorageDeadline s = 2 * s.timeout ∧
    unregisterObjectStorageDeadline s = 2 * s.timeout :=
  ⟨rfl, rfl, rfl, rfl, rfl, rfl⟩

/-- A registry holding one not-ready member "n1". -/
def oneNotReadyReg : Registry :=
  { version := "v1", secret := "s", timeout := 30, check := 60,
    nodes := [("n1", ⟨notReadyNode, 0⟩)], nextLoop := 1, liveLoops := [0] }

/-- C7 counterexample: with one member whose per-node status call fails
(not ready), the status endpoint still answers HTTP 200 — not a
non-success status with a combined error — and reports the failure only
inside the body entry for that member. -/
theorem status_failure_returns_http_200 :
    (dataSourceStatusHandler oneNotReadyReg "ds" (fun _ => .ok "ready")).code
        = 200 ∧
    (dataSourceStatusHandler oneNotReadyReg "ds" (fun _ => .ok "ready")).entries
        = [⟨"n1", "error", "node is not ready"⟩] := by
  decide

/-- C7 (amended): the data-source status endpoint is not a
failure-aggregating broadcast: for a non-empty data-source name it
always answers HTTP 200 with one body entry per member, where a member
whose per-node call fails appears as `{node, status: "error", error}`
and a member whose call succeeds appears with its reported status —
per-node failures never turn the response into a non-success HTTP
status. -/
theorem status_handler_reports_errors_in_success_body
    (s : Registry) (name : String) (net : String → Except String String)
    (h : name ≠ "") :
    (dataSourceStatusHandler s name net).code = 200 ∧
    (dataSourceStatusHandler s name net).entries.length = s.nodes.length ∧
    (∀ p ∈ s.nodes, ∀ e,
      (p.2.node.DataSourceStatus (net p.1)).1 = .error e →
      (⟨p.1, "error", e⟩ : DataSourceStatus) ∈
        (dataSourceStatusHandler s name net).entries) ∧
    (∀ p ∈ s.nodes, ∀ st,
      (p.2.node.DataSourceStatus (net p.1)).1 = .ok st →
      (⟨p.1, st, ""⟩ : DataSourceStatus) ∈
        (dataSourceStatusHandler s name net).entries) := by
  unfold dataSourceStatusHandler
  rw [if_neg h]
  refine ⟨rfl, by simp, ?_, ?_⟩
  · intro p hp e he
    simp only [List.mem_map]
    exact ⟨p, hp, by rw [he]⟩
  · intro p hp st hst
    simp only [List.mem_map]
    exact ⟨p, hp, by rw [hst]⟩

/-- Witness for the amended C7 statement at a concrete one-member
registry whose member is not ready. -/
theorem status_handler_reports_errors_in_success_body_witness :
    (dataSourceStatusHandler oneNotReadyReg "logs" (fun _ => .ok "ok")).code
        = 200 ∧
    (⟨"n1", "error", "node is not ready"⟩ : DataSourceStatus) ∈
      (dataSourceStatusHandler oneNotReadyReg "logs" (fun _ => .ok "ok")).entries := by
  have h := status_handler_reports_errors_in_success_body oneNotReadyReg
    "logs" (fun _ => .ok "ok") (by decide)
  exact ⟨h.1, h.2.2.1 ("n1", ⟨notReadyNode, 0⟩) (by decide) "node is not ready"
    rfl⟩

/-- Go map assignment followed by lookup of the same key yields the
assigned value. -/
theorem lookupNode_insertNode (nodes : List (String × RegNode))
    (k : String) (rn : RegNode) :
    lookupNode (insertNode nodes k rn) k = some rn := by
  unfold insertNode
  by_cases h : nodes.any (fun p => p.1 == k)
  · rw [if_pos h]
    induction nodes with
    | nil => simp at h
    | cons hd tl ih =>
      by_cases hhd : hd.1 == k
      · simp [lookupNode, List.find?, hhd]
      · simp only [List.any_cons, hhd, Bool.false_or] at h
        simp only [List.map_cons, if_neg hhd]
        simpa [lookupNode, List.find?, hhd] using ih h
  · rw [if_neg h]
    induction nodes with
    | nil => simp [lookupNode, List.find?]
    | cons hd tl ih =>
      simp only [List.any_cons, Bool.or_eq_true, not_or] at h
      simp only [List.cons_append]
      simpa [lookupNode, List.find?, h.1] using ih (by simpa using h.2)

/-- C10 (amended): a registration of a fresh URL creates a handle whose
error is nil, whose `lastSeen` is the creation time and whose version is
the request's `version` parameter; before any ping it is ready iff that
supplied version equals the configured cluster version — so a
registration omitting the version parameter (version "") yields a
not-ready node whenever the configured cluster version is non-empty. -/
theorem fresh_registration_initial_state (s : Registry)
    (urlParam nameParam versionParam : String) (now : Nat)
    (hurl : urlParam ≠ "")
    (hfresh : lookupNode s.nodes urlParam = none) :
    ∃ rn,
      lookupNode
        ((nodeHandlerPost s urlParam nameParam versionParam now).1).nodes
        (if nameParam = "" then urlParam else nameParam) = some rn ∧
      rn.node.err = none ∧
      rn.node.lastSeen = now ∧
      rn.node.version = versionParam ∧
      rn.node.clusterVersion = s.version ∧
      (rn.node.IsReady = true ↔ versionParam = s.version) ∧
      (versionParam = "" → s.version ≠ "" → rn.node.IsReady = false) := by
  unfold nodeHandlerPost
  rw [if_neg hurl]
  simp only [hfresh]
  refine ⟨⟨NewNode
    { URL := urlParam, Version := versionParam, Secret := s.secret,
      Timeout := s.timeout, Interval := s.check,
      ClusterVersion := s.version } now, s.nextLoop⟩, ?_, ?_, ?_, ?_, ?_, ?_, ?_⟩
  · exact lookupNode_insertNode s.nodes _ _
  · rfl
  · rfl
  · rfl
  · rfl
  · simp [Node.IsReady, NewNode]
  · intro hv hcv
    simp [Node.IsReady, NewNode, hv]
    exact fun hc => absurd hc.symm hcv

/-- Witness for the amended C10 statement: registering URL "u" on the
empty registry (cluster version "v1") with an omitted name and an
omitted version parameter. -/
theorem fresh_registration_initial_state_witness :
    ∃ rn,
      lookupNode ((nodeHandlerPost emptyReg "u" "w1" "" 7).1).nodes "w1"
          = some rn ∧
      rn.node.err = none ∧ rn.node.lastSeen = 7 ∧ rn.node.version = "" ∧
      rn.node.IsReady = false := by
  have h := fresh_registration_initial_state emptyReg "u" "w1" "" 7
    (by decide) (by decide)
  rw [if_neg (by decide)] at h
  obtain ⟨rn, h1, h2, h3, h4, _, _, h7⟩ := h
  exact ⟨rn, h1, h2, h3, h4, h7 rfl (by decide)⟩

/-- The empty registry of a management service whose configured cluster
version is the empty string. -/
def emptyVersionReg : Registry :=
  { version := "", secret := "s", timeout := 30, check := 60,
    nodes := [], nextLoop := 0, liveLoops := [] }

/-- C10 counterexample: when the configured cluster version is the empty
string, a registration omitting the version parameter creates a node
that is immediately ready — "" equals the cluster version — refuting the
claim's parenthetical that such a registration always yields a not-ready
node before the first ping. -/
theorem omitted_version_ready_when_cluster_version_empty :
    (lookupNode ((nodeHandlerPost emptyVersionReg "u" "" "" 5).1).nodes
        "u").map (fun rn => rn.node.IsReady) = some true := by
  decide

/-- The member loop of the storages listing, when every ready member's
outbound listing succeeds: not-ready members are skipped and the
accumulated result is exactly the ready members' credentials, tagged. -/
theorem storagesGo_all_ready_ok (net : String → Except String (List StorageInfo))
    (succ : String → List StorageInfo) :
    ∀ (ns : List (String × RegNode)) (acc : List StorageInfo),
      (∀ p ∈ ns, p.2.node.IsReady = true → net p.1 = .ok (succ p.1)) →
      storagesGo net ns acc =
        ⟨200, "",
          acc ++ (ns.filter (fun p => p.2.node.IsReady)).flatMap
            (fun p => (succ p.1).map (fun si => { si with Node := p.1 }))⟩ := by
  intro ns
  induction ns with
  | nil => intro acc _; simp [storagesGo]
  | cons hd tl ih =>
    intro acc h
    obtain ⟨nm, rn⟩ := hd
    by_cases hr : rn.node.IsReady
    · have hnet : net nm = .ok (succ nm) := h (nm, rn) (by simp) hr
      have htl : ∀ p ∈ tl, p.2.node.IsReady = true → net p.1 = .ok (succ p.1) :=
        fun p hp => h p (by simp [hp])
      simp only [storagesGo, Node.RegisteredStorages, hr, if_true, hnet,
        Except.mapError]
      rw [ih _ htl]
      simp [hr, List.append_assoc]
    · have hb : rn.node.IsReady = false := by simpa using hr
      have htl : ∀ p ∈ tl, p.2.node.IsReady = true → net p.1 = .ok (succ p.1) :=
        fun p hp => h p (by simp [hp])
      simp only [storagesGo, Node.RegisteredStorages, hb, Bool.false_eq_true,
        if_false]
      rw [ih _ htl]
      simp [hb]

/-- C6: for the storages listing, when every ready member's outbound
listing succeeds (returning `succ` of its name), the handler answers
HTTP 200 with no error, members that fail with the not-ready sentinel
are skipped, and the body is exactly the concatenation of the ready
members' credentials, each entry tagged with the registry name of the
member it came from. -/
theorem storages_listing_skips_not_ready (s : Registry)
    (net : String → Except String (List StorageInfo))
    (succ : String → List StorageInfo)
    (h : ∀ p ∈ s.nodes, p.2.node.IsReady = true → net p.1 = .ok (succ p.1)) :
    registeredStoragesHandler s net =
      ⟨200, "",
        (s.nodes.filter (fun p => p.2.node.IsReady)).flatMap
          (fun p => (succ p.1).map (fun si => { si with Node := p.1 }))⟩ := by
  unfold registeredStoragesHandler
  simpa using storagesGo_all_ready_ok net succ s.nodes [] h

/-- A registry with one ready member "A" and one not-ready member "B". -/
def mixedReg : Registry :=
  { version := "v1", secret := "s", timeout := 30, check := 60,
    nodes := [("A", ⟨readyNode, 0⟩), ("B", ⟨notReadyNode, 1⟩)],
    nextLoop := 2, liveLoops := [1, 0] }

/-- Network oracle for the C6 witness: member "A" reports one credential,
any other member's call would fail. -/
def storagesNetW (nm : String) : Except String (List StorageInfo) :=
  if nm = "A" then .ok [⟨"", "st1", "s3", ["a"], "p"⟩] else .error "boom"

/-- Listing outcome of the ready members for the C6 witness. -/
def storagesSuccW (nm : String) : List StorageInfo :=
  if nm = "A" then [⟨"", "st1", "s3", ["a"], "p"⟩] else []

/-- Witness for C6: one ready and one not-ready member; the response is
200 with exactly the ready member's credential tagged "A". -/
theorem storages_listing_skips_not_ready_witness :
    registeredStoragesHandler mixedReg storagesNetW =
      ⟨200, "", [⟨"A", "st1", "s3", ["a"], "p"⟩]⟩ := by
  have h := storages_listing_skips_not_ready mixedReg storagesNetW
    storagesSuccW ?_
  · rw [h]; decide
  · intro p hp
    simp only [mixedReg, List.mem_cons, List.not_mem_nil, or_false] at hp
    rcases hp with h1 | h1 <;> subst h1 <;> intro hr
    · rfl
    · exact absurd hr (by decide)

/-- A string's length is zero exactly when it is empty. -/
theorem string_length_eq_zero (s : String) : s.length = 0 ↔ s = "" := by
  cases s with
  | mk data => simp [String.length, List.length_eq_zero, String.ext_iff]

/-- Appending to a nonempty string keeps it nonempty. -/
theorem string_append_ne_empty (a b : String) (h : a ≠ "") : a ++ b ≠ "" := by
  intro he
  apply h
  have hl : (a ++ b).length = 0 := by rw [he]; rfl
  rw [String.length_append] at hl
  exact (string_length_eq_zero a).mp (by omega)

/-- If an append is empty, so is its right part. -/
theorem string_right_empty_of_append_empty (a b : String)
    (h : a ++ b = "") : b = "" := by
  have hl : (a ++ b).length = 0 := by rw [h]; rfl
  rw [String.length_append] at hl
  exact (string_length_eq_zero b).mp (by omega)

/-- Folding the error collector from a nonempty accumulator only extends
the accumulator on the right. -/
theorem foldl_appendErr_extends (es : List String) :
    ∀ a : String, a ≠ "" → ∃ suf, List.foldl appendErr a es = a ++ suf := by
  induction es with
  | nil => exact fun a _ => ⟨"", (String.append_empty a).symm⟩
  | cons e tl ih =>
    intro a ha
    have hae : appendErr a e = a ++ (";\n" ++ e) := by
      unfold appendErr
      rw [if_neg ha, String.append_assoc]
    have hne : appendErr a e ≠ "" := by
      rw [hae]; exact string_append_ne_empty a _ ha
    obtain ⟨suf, hs⟩ := ih (appendErr a e) hne
    refine ⟨";\n" ++ e ++ suf, ?_⟩
    rw [List.foldl_cons, hs, hae, String.append_assoc, String.append_assoc]

/-- Every message received by the error collector appears inside the
combined message it builds, whatever the accumulator started as. -/
theorem foldl_appendErr_contains (es : List String) (m : String)
    (hm : m ∈ es) :
    ∀ a : String, ∃ pre suf, List.foldl appendErr a es = pre ++ m ++ suf := by
  induction es with
  | nil => cases hm
  | cons e tl ih =>
    intro a
    rcases List.mem_cons.mp hm with he | htl
    · subst he
      have hsplit : ∃ pre0, appendErr a m = pre0 ++ m := by
        unfold appendErr
        by_cases ha : a = ""
        · exact ⟨"", by rw [if_pos ha, String.empty_append]⟩
        · exact ⟨a ++ ";\n", by rw [if_neg ha]⟩
      obtain ⟨pre0, hp⟩ := hsplit
      by_cases hz : appendErr a m = ""
      · have hme : m = "" := string_right_empty_of_append_empty pre0 m (hp ▸ hz)
        subst hme
        refine ⟨"", List.foldl appendErr (appendErr a "") tl, ?_⟩
        rw [List.foldl_cons, String.empty_append, String.empty_append]
      · obtain ⟨suf, hs⟩ := foldl_appendErr_extends tl (appendErr a m) hz
        exact ⟨pre0, suf, by rw [List.foldl_cons, hs, hp, String.append_assoc]⟩
    · obtain ⟨pre, suf, hs⟩ := ih htl (appendErr a e)
      exact ⟨pre, suf, by rw [List.foldl_cons, hs]⟩

/-- The combined message of a nonempty list of nonempty errors is
nonempty. -/
theorem combineErrs_ne_empty (es : List String) (hne : es ≠ [])
    (h : ∀ e ∈ es, e ≠ "") : combineErrs es ≠ "" := by
  cases es with
  | nil => exact absurd rfl hne
  | cons e tl =>
    unfold combineErrs
    rw [List.foldl_cons]
    have hae : appendErr "" e = e := by unfold appendErr; rw [if_pos rfl]
    rw [hae]
    obtain ⟨suf, hs⟩ := foldl_appendErr_extends tl e (h e (by simp))
    rw [hs]
    exact string_append_ne_empty e suf (h e (by simp))

/-- What the error-aggregation contract of a mutation broadcast says
about one handler run: every collected message comes from a member whose
per-node call failed (no succeeded member is reported as failing); every
failing member's formatted message is collected and appears inside the
combined message (no per-node error is dropped); the handler answers 500
with the combined message when any member failed and 200 with the fixed
success body when none did. -/
def BroadcastSpec (nodes : List (String × RegNode))
    (f : String → RegNode → Option String) (resp : HttpResp)
    (okBody : String) : Prop :=
  (∀ m ∈ broadcastErrs nodes f, ∃ p ∈ nodes, f p.1 p.2 = some m) ∧
  (∀ p ∈ nodes, ∀ m, f p.1 p.2 = some m →
    m ∈ broadcastErrs nodes f ∧
    ∃ pre suf, combineErrs (broadcastErrs nodes f) = pre ++ m ++ suf) ∧
  (broadcastErrs nodes f ≠ [] →
    resp = ⟨500, combineErrs (broadcastErrs nodes f)⟩) ∧
  (broadcastErrs nodes f = [] → resp = ⟨200, okBody⟩)

/-- The broadcast contract holds for any response built by the shared
collector pattern, provided the per-member messages are nonempty. -/
theorem broadcastSpec_of_collector (nodes : List (String × RegNode))
    (f : String → RegNode → Option String) (okBody : String)
    (hf : ∀ nn rn m, f nn rn = some m → m ≠ "") :
    BroadcastSpec nodes f
      (if combineErrs (broadcastErrs nodes f) = "" then ⟨200, okBody⟩
       else ⟨500, combineErrs (broadcastErrs nodes f)⟩) okBody := by
  refine ⟨?_, ?_, ?_, ?_⟩
  · intro m hm
    obtain ⟨p, hp, hfp⟩ := List.mem_filterMap.mp hm
    exact ⟨p, hp, hfp⟩
  · intro p hp m hfp
    have hmem : m ∈ broadcastErrs nodes f :=
      List.mem_filterMap.mpr ⟨p, hp, hfp⟩
    exact ⟨hmem, foldl_appendErr_contains _ m hmem ""⟩
  · intro hne
    have hnz : combineErrs (broadcastErrs nodes f) ≠ "" := by
      refine combineErrs_ne_empty _ hne ?_
      intro e he
      obtain ⟨p, _, hfp⟩ := List.mem_filterMap.mp he
      exact hf p.1 p.2 e hfp
    rw [if_neg hnz]
  · intro hz
    have : combineErrs (broadcastErrs nodes f) = "" := by
      rw [hz]; rfl
    rw [if_pos this]

/-- The formatted load-failure message is never empty. -/
theorem loadErrMsg_ne_empty (nn e : String) : loadErrMsg nn e ≠ "" := by
  unfold loadErrMsg
  apply string_append_ne_empty
  apply string_append_ne_empty
  apply string_append_ne_empty
  decide

/-- The formatted unload-failure message is never empty. -/
theorem unloadErrMsg_ne_empty (nn e : String) : unloadErrMsg nn e ≠ "" := by
  unfold unloadErrMsg
  apply string_append_ne_empty
  apply string_append_ne_empty
  apply string_append_ne_empty
  decide

/-- The formatted register-storage-failure message is never empty. -/
theorem registerStorageErrMsg_ne_empty (scope : List String) (nn e : String) :
    registerStorageErrMsg scope nn e ≠ "" := by
  unfold registerStorageErrMsg
  apply string_append_ne_empty
  apply string_append_ne_empty
  apply string_append_ne_empty
  apply string_append_ne_empty
  apply string_append_ne_empty
  decide

/-- The formatted unregister-storage-failure message is never empty. -/
theorem unregisterStorageErrMsg_ne_empty (name nn e : String) :
    unregisterStorageErrMsg name nn e ≠ "" := by
  unfold unregisterStorageErrMsg
  apply string_append_ne_empty
  apply string_append_ne_empty
  apply string_append_ne_empty
  apply string_append_ne_empty
  apply string_append_ne_empty
  decide

/-- The error-aggregation contract holds for each of the four mutation
broadcasts under the fully synchronized schedule (`lagged = false`, the
collector's every append visible at the read): the combined 500 body
contains every failing member's formatted message (which carries the
member's name and error text), only failing members contribute messages,
no message is dropped, and the handler succeeds exactly when no member
failed.  This is the behavior the collector pattern intends; the racy
schedules are covered by `collector_race_drops_last_error`. -/
theorem mutation_broadcast_error_aggregation (s : Registry) (name : String)
    (ds : SecretInfo) (netL netU netR netD : String → Except String Unit)
    (hname : name ≠ "") :
    BroadcastSpec s.nodes (loadFail netL)
      (loadDataSourceHandler s name netL false) loadOkBody ∧
    BroadcastSpec s.nodes (unloadFail netU)
      (unloadDataSourceHandler s name netU false) unloadOkBody ∧
    BroadcastSpec s.nodes (registerStorageFail ds netR)
      (registerObjectStorageHandler s ds netR false) registerOkBody ∧
    BroadcastSpec s.nodes (unregisterStorageFail name netD)
      (unregisterObjectStorageHandler s name netD false) unregisterOkBody := by
  refine ⟨?_, ?_, ?_, ?_⟩
  · have h := broadcastSpec_of_collector s.nodes (loadFail netL) loadOkBody
      (fun nn rn m hm => by
        unfold loadFail at hm
        rcases hr : (rn.node.LoadDataSource (netL nn)).1 with e | u <;>
          rw [hr] at hm
        · cases hm
          exact loadErrMsg_ne_empty nn e
        · cases hm)
    unfold loadDataSourceHandler
    rw [if_neg hname]
    by_cases hz : combineErrs (broadcastErrs s.nodes (loadFail netL)) = "" <;>
      simpa [hz, collectorView] using h
  · have h := broadcastSpec_of_collector s.nodes (unloadFail netU) unloadOkBody
      (fun nn rn m hm => by
        unfold unloadFail at hm
        rcases hr : (rn.node.UnloadDataSource (netU nn)).1 with e | u <;>
          rw [hr] at hm
        · cases hm
          exact unloadErrMsg_ne_empty nn e
        · cases hm)
    unfold unloadDataSourceHandler
    rw [if_neg hname]
    by_cases hz : combineErrs (broadcastErrs s.nodes (unloadFail netU)) = "" <;>
      simpa [hz, collectorView] using h
  · have h := broadcastSpec_of_collector s.nodes (registerStorageFail ds netR)
      registerOkBody
      (fun nn rn m hm => by
        unfold registerStorageFail at hm
        rcases hr : (rn.node.RegisterObjectStorage ds (netR nn)).1 with e | u <;>
          rw [hr] at hm
        · cases hm
          exact registerStorageErrMsg_ne_empty ds.Scope nn e
        · cases hm)
    unfold registerObjectStorageHandler
    by_cases hz :
        combineErrs (broadcastErrs s.nodes (registerStorageFail ds netR)) = "" <;>
      simpa [hz, collectorView] using h
  · have h := broadcastSpec_of_collector s.nodes (unregisterStorageFail name netD)
      unregisterOkBody
      (fun nn rn m hm => by
        unfold unregisterStorageFail at hm
        rcases hr : (rn.node.UnregisterObjectStorage (netD nn)).1 with e | u <;>
          rw [hr] at hm
        · cases hm
          exact unregisterStorageErrMsg_ne_empty name nn e
        · cases hm)
    unfold unregisterObjectStorageHandler
    rw [if_neg hname]
    by_cases hz :
        combineErrs (broadcastErrs s.nodes (unregisterStorageFail name netD)) = "" <;>
      simpa [hz, collectorView] using h

/-- A registry with two ready members "A" and "B". -/
def twoNodeReg : Registry :=
  { version := "v1", secret := "s", timeout := 30, check := 60,
    nodes := [("A", ⟨readyNode, 0⟩), ("B", ⟨readyNode, 1⟩)],
    nextLoop := 2, liveLoops := [1, 0] }

/-- Network oracle for the C2 failing input: member "B" fails with
"boom", every other member succeeds. -/
def failBNet (nm : String) : Except String Unit :=
  if nm = "B" then .error "boom" else .ok ()

/-- C2 (evaluation at the failing input): with members "A" (succeeding)
and "B" (failing with "boom"), member "B" does send its error into the
channel, yet in the reachable schedule where the handler's `errMsg` read
precedes the collector's final append (`lagged = true`) the load
broadcast answers 200 with the success body — the failure is dropped and
no overall failure is reported, contradicting the claim.  Only the fully
synchronized schedule (`lagged = false`), which the code does not
enforce, produces the claimed 500 response naming the failing member. -/
theorem collector_race_drops_last_error :
    broadcastErrs twoNodeReg.nodes (loadFail failBNet) =
      ["failed to load data source on node B: boom"] ∧
    loadDataSourceHandler twoNodeReg "ds" failBNet true = ⟨200, loadOkBody⟩ ∧
    loadDataSourceHandler twoNodeReg "ds" failBNet false =
      ⟨500, "failed to load data source on node B: boom"⟩ := by
  decide

/-! # C9: storage-credential parameter validation -/

/-- No required key is one of the three specially-defaulted keys. -/
theorem required_not_special :
    ∀ k ∈ requiredStorageParamKeys,
      (k == "URL_COMPATIBILITY_MODE") = false ∧
      (k == "KMS_KEY_ID" || k == "ACCOUNT_ID") = false := by
  decide

/-- Every required key is iterated by the validation loop. -/
theorem required_sub_storageParamKeys :
    ∀ k ∈ requiredStorageParamKeys, k ∈ storageParamKeys := by
  decide

/-- Each step of the validation loop either fails locally or wraps the
remaining steps' outcome. -/
theorem buildAux_cons_shape (ps : List (String × PVal)) (k : String)
    (ks : List String) :
    (∃ msg, buildStorageParamsAux ps (k :: ks) = .error msg) ∨
    (∃ f, buildStorageParamsAux ps (k :: ks) =
      (buildStorageParamsAux ps ks).map f) := by
  cases hl : lookupParam ps k with
  | none =>
    by_cases h1 : (k == "URL_COMPATIBILITY_MODE") = true
    · exact .inr ⟨(("url_compatibility", PVal.boolv false) :: ·),
        by simp [buildStorageParamsAux, hl, h1]⟩
    · by_cases h2 : (k == "KMS_KEY_ID" || k == "ACCOUNT_ID") = true
      · exact .inr ⟨((k, PVal.str "") :: ·),
          by simp [buildStorageParamsAux, hl, h1, h2]⟩
      · exact .inl ⟨"missing parameter: " ++ k,
          by simp [buildStorageParamsAux, hl, h1, h2]⟩
  | some val =>
    by_cases h1 : (k == "URL_COMPATIBILITY_MODE") = true
    · cases val with
      | boolv b =>
        exact .inr ⟨(("url_compatibility", PVal.boolv b) :: ·),
          by simp [buildStorageParamsAux, hl, h1]⟩
      | str v =>
        exact .inl ⟨"panic: URL_COMPATIBILITY_MODE is not a bool",
          by simp [buildStorageParamsAux, hl, h1]⟩
      | strs v =>
        exact .inl ⟨"panic: URL_COMPATIBILITY_MODE is not a bool",
          by simp [buildStorageParamsAux, hl, h1]⟩
    · by_cases h2 : (k == "USE_SSL") = true
      · cases val with
        | boolv b =>
          exact .inr ⟨(("use_ssl", PVal.boolv b) :: ·),
            by simp [buildStorageParamsAux, hl, h1, h2]⟩
        | str v =>
          exact .inl ⟨"invalid parameter: " ++ k,
            by simp [buildStorageParamsAux, hl, h1, h2]⟩
        | strs v =>
          exact .inl ⟨"invalid parameter: " ++ k,
            by simp [buildStorageParamsAux, hl, h1, h2]⟩
      · exact .inr ⟨((k, val) :: ·),
          by simp [buildStorageParamsAux, hl, h1, h2]⟩

/-- If some iterated key is required and absent, the validation loop
fails locally. -/
theorem buildAux_error_of_missing :
    ∀ (ks : List String) (ps : List (String × PVal)),
      (∃ k ∈ ks, k ∈ requiredStorageParamKeys ∧ lookupParam ps k = none) →
      ∃ msg, buildStorageParamsAux ps ks = .error msg := by
  intro ks
  induction ks with
  | nil =>
    rintro ps ⟨k, hk, _⟩
    cases hk
  | cons k ks ih =>
    rintro ps ⟨k0, hk0, hreq, hmiss⟩
    rcases List.mem_cons.mp hk0 with rfl | htl
    · have hs := required_not_special k0 hreq
      exact ⟨"missing parameter: " ++ k0,
        by simp [buildStorageParamsAux, hmiss, hs.1, hs.2]⟩
    · obtain ⟨msg, hmsg⟩ := ih ps ⟨k0, htl, hreq, hmiss⟩
      rcases buildAux_cons_shape ps k ks with ⟨m, hm⟩ | ⟨f, hf⟩
      · exact ⟨m, hm⟩
      · exact ⟨msg, by rw [hf, hmsg]; rfl⟩

/-- When every supplied `USE_SSL` value is boolean, the validation loop
over the full key list fails with a message naming the first required
key that is absent. -/
theorem buildStorageParams_names_first_missing (info : SecretInfo)
    (hssl : ∀ v, lookupParam info.Parameters "USE_SSL" = some v →
      ∃ b, v = PVal.boolv b)
    (k0 : String)
    (hfirst : requiredStorageParamKeys.find?
      (fun k => (lookupParam info.Parameters k).isNone) = some k0) :
    buildStorageParams info = .error ("missing parameter: " ++ k0) := by
  unfold requiredStorageParamKeys at hfirst
  by_cases h1 : ((lookupParam info.Parameters "KEY_ID").isNone = true)
  · have hk : "KEY_ID" = k0 := by simpa [List.find?, h1] using hfirst
    subst hk
    have hn := Option.isNone_iff_eq_none.mp h1
    simp [buildStorageParams, storageParamKeys, buildStorageParamsAux, hn,
      Except.map]
  cases hv1 : lookupParam info.Parameters "KEY_ID" with
  | none => rw [hv1] at h1; exact absurd rfl h1
  | some v1 =>
  by_cases h2 : ((lookupParam info.Parameters "SECRET").isNone = true)
  · have hk : "SECRET" = k0 := by simpa [List.find?, hv1, h2] using hfirst
    subst hk
    have hn := Option.isNone_iff_eq_none.mp h2
    simp [buildStorageParams, storageParamKeys, buildStorageParamsAux, hn,
      hv1, Except.map]
  cases hv2 : lookupParam info.Parameters "SECRET" with
  | none => rw [hv2] at h2; exact absurd rfl h2
  | some v2 =>
  by_cases h3 : ((lookupParam info.Parameters "REGION").isNone = true)
  · have hk : "REGION" = k0 := by
      simpa [List.find?, hv1, hv2, h3] using hfirst
    subst hk
    have hn := Option.isNone_iff_eq_none.mp h3
    simp [buildStorageParams, storageParamKeys, buildStorageParamsAux, hn,
      hv1, hv2, Except.map]
  cases hv3 : lookupParam info.Parameters "REGION" with
  | none => rw [hv3] at h3; exact absurd rfl h3
  | some v3 =>
  by_cases h4 : ((lookupParam info.Parameters "ENDPOINT").isNone = true)
  · have hk : "ENDPOINT" = k0 := by
      simpa [List.find?, hv1, hv2, hv3, h4] using hfirst
    subst hk
    have hn := Option.isNone_iff_eq_none.mp h4
    simp [buildStorageParams, storageParamKeys, buildStorageParamsAux, hn,
      hv1, hv2, hv3, Except.map]
  cases hv4 : lookupParam info.Parameters "ENDPOINT" with
  | none => rw [hv4] at h4; exact absurd rfl h4
  | some v4 =>
  by_cases h5 : ((lookupParam info.Parameters "USE_SSL").isNone = true)
  · have hk : "USE_SSL" = k0 := by
      simpa [List.find?, hv1, hv2, hv3, hv4, h5] using hfirst
    subst hk
    have hn := Option.isNone_iff_eq_none.mp h5
    simp [buildStorageParams, storageParamKeys, buildStorageParamsAux, hn,
      hv1, hv2, hv3, hv4, Except.map]
  cases hv5 : lookupParam info.Parameters "USE_SSL" with
  | none => rw [hv5] at h5; exact absurd rfl h5
  | some v5 =>
  obtain ⟨b, rfl⟩ := hssl v5 hv5
  by_cases h6 : ((lookupParam info.Parameters "URL_STYLE").isNone = true)
  · have hk : "URL_STYLE" = k0 := by
      simpa [List.find?, hv1, hv2, hv3, hv4, hv5, h6] using hfirst
    subst hk
    have hn := Option.isNone_iff_eq_none.mp h6
    simp [buildStorageParams, storageParamKeys, buildStorageParamsAux, hn,
      hv1, hv2, hv3, hv4, hv5, Except.map]
  exact absurd hfirst (by simp [List.find?, hv1, hv2, hv3, hv4, hv5, h6])

/-- C9 (amended): whenever a required storage-credential parameter key is
absent, `RegisterObjectStorage` performs zero outbound network calls and
fails with an error; moreover, on a ready node whose supplied `USE_SSL`
value (if any) is boolean, the error names the first absent required key
in validation order ("missing parameter: <key>"). -/
theorem register_storage_missing_key_validation (n : Node)
    (info : SecretInfo) (net : Except String Unit) (k : String)
    (hk : k ∈ requiredStorageParamKeys)
    (hmiss : lookupParam info.Parameters k = none) :
    ((n.RegisterObjectStorage info net).2 = 0 ∧
      ∃ msg, (n.RegisterObjectStorage info net).1 = .error msg) ∧
    (n.IsReady = true →
      (∀ v, lookupParam info.Parameters "USE_SSL" = some v →
        ∃ b, v = PVal.boolv b) →
      ∃ k0, requiredStorageParamKeys.find?
          (fun kk => (lookupParam info.Parameters kk).isNone) = some k0 ∧
        lookupParam info.Parameters k0 = none ∧
        (n.RegisterObjectStorage info net).1 =
          .error ("missing parameter: " ++ k0)) := by
  have hauxerr : ∃ msg,
      buildStorageParamsAux info.Parameters storageParamKeys = .error msg :=
    buildAux_error_of_missing storageParamKeys info.Parameters
      ⟨k, required_sub_storageParamKeys k hk, hk, hmiss⟩
  have hbuild : ∃ msg, buildStorageParams info = .error msg := by
    obtain ⟨msg, hmsg⟩ := hauxerr
    exact ⟨msg, by unfold buildStorageParams; rw [hmsg]; rfl⟩
  constructor
  · cases hr : n.IsReady with
    | false =>
      unfold Node.RegisterObjectStorage
      rw [hr]
      exact ⟨rfl, "node is not ready", rfl⟩
    | true =>
      obtain ⟨msg, hmsg⟩ := hbuild
      unfold Node.RegisterObjectStorage
      rw [hr, if_pos rfl, hmsg]
      exact ⟨rfl, msg, rfl⟩
  · intro hr hssl
    have hsome : (requiredStorageParamKeys.find?
        (fun kk => (lookupParam info.Parameters kk).isNone)).isSome := by
      rw [List.find?_isSome]
      exact ⟨k, hk, by rw [hmiss]; rfl⟩
    obtain ⟨k0, hk0⟩ := Option.isSome_iff_exists.mp hsome
    have hpred : (lookupParam info.Parameters k0).isNone = true := by
      have hp := List.find?_some hk0
      simpa using hp
    have hmain := buildStorageParams_names_first_missing info hssl k0 hk0
    refine ⟨k0, hk0, Option.isNone_iff_eq_none.mp hpred, ?_⟩
    unfold Node.RegisterObjectStorage
    rw [hr, if_pos rfl, hmain]

/-- Credential parameters for the C9 counterexample: all required keys
before `URL_STYLE` are present, but `USE_SSL` carries a string, and the
required key `URL_STYLE` is absent. -/
def maskedParams : List (String × PVal) :=
  [("KEY_ID", .str "k"), ("SECRET", .str "sec"), ("REGION", .str "r"),
   ("ENDPOINT", .str "e"), ("USE_SSL", .str "yes")]

/-- C9 counterexample: with the required key `URL_STYLE` missing but a
non-boolean `USE_SSL` supplied, `RegisterObjectStorage` on a ready node
fails locally with "invalid parameter: USE_SSL" — no network call, but
the error does not name the missing key, contrary to the claim. -/
theorem invalid_use_ssl_masks_missing_key :
    "URL_STYLE" ∈ requiredStorageParamKeys ∧
    lookupParam maskedParams "URL_STYLE" = none ∧
    readyNode.RegisterObjectStorage ⟨"s3", "cred", ["sc"], maskedParams⟩
        (.ok ()) = (.error "invalid parameter: USE_SSL", 0) ∧
    "invalid parameter: USE_SSL" ≠ "missing parameter: " ++ "URL_STYLE" := by
  exact ⟨by decide, rfl, rfl, by decide⟩

/-- Witness for the amended C9 statement: a ready node and a parameter
map holding only `KEY_ID`; the relay fails locally, without a network
call, naming the first missing required key `SECRET`. -/
theorem register_storage_missing_key_validation_witness :
    readyNode.IsReady = true ∧
    lookupParam [("KEY_ID", PVal.str "k")] "SECRET" = none ∧
    (readyNode.RegisterObjectStorage
      ⟨"s3", "cred", ["sc"], [("KEY_ID", PVal.str "k")]⟩ (.ok ())).2 = 0 ∧
    (readyNode.RegisterObjectStorage
      ⟨"s3", "cred", ["sc"], [("KEY_ID", PVal.str "k")]⟩ (.ok ())).1 =
      .error ("missing parameter: " ++ "SECRET") := by
  have h := register_storage_missing_key_validation readyNode
    ⟨"s3", "cred", ["sc"], [("KEY_ID", PVal.str "k")]⟩ (.ok ()) "SECRET"
    (by decide) rfl
  obtain ⟨⟨hcount, _⟩, hmain⟩ := h
  obtain ⟨k0, hfind, _, herr⟩ := hmain (by decide)
    (by intro v hv; simp [lookupParam, List.find?] at hv)
  have hk0 : k0 = "SECRET" := by
    have hs : some "SECRET" = some k0 := by
      rw [← hfind]; decide
    exact (Option.some.inj hs).symm
  subst hk0
  exact ⟨rfl, rfl, hcount, herr⟩


end HugrCluster
